import Mathlib

/-!
# by2: the add operation and the export-visibility shim

A shallow embedding of `src/ccore/ccore.cpp` (`by2::ccore_add`) and of the
preprocessor logic of `src/by2/by2/by2.h` (`BY2_API`), with the properties the
specification states about them.

Conventions of the embedding.

* `int32_t` is the set of integers in `[-2^31, 2^31)`.
* `a + b` on `int32_t` is the addition of the 32-bit two's-complement adder:
  the operands are read as 32-bit patterns, added modulo `2^32`, and the
  pattern is read back as a signed value.  ISO C++ leaves the overflowing case
  undefined; the embedding fixes the behaviour of the adder, which is the
  semantics the specification names.
* `spdlog::info` is an external collaborator.  It is a parameter of the model:
  a call receives the logger's state and the message and either returns with a
  new state or raises.  `ccore_add` has no handler around the call.
-/

namespace by2

/-! ## Fixed-width integers -/

/-- Smallest value of `int32_t`. -/
def INT32_MIN : Int := -2147483648

/-- Largest value of `int32_t`. -/
def INT32_MAX : Int := 2147483647

/-- Values of the C type `int32_t`. -/
abbrev int32_t : Type := { x : Int // INT32_MIN ≤ x ∧ x ≤ INT32_MAX }

/-- The 32-bit pattern that stores an integer: its residue in `[0, 2^32)`. -/
def bits32 (x : Int) : Nat := (x % 4294967296).toNat

/-- Two's-complement reading of a 32-bit pattern. -/
def signed32 (n : Nat) : Int :=
  if n < 2147483648 then (n : Int) else (n : Int) - 4294967296

/-- The expression `a + b` on two `int32_t` operands, as the 32-bit adder
computes it. -/
def int32_add (a b : int32_t) : int32_t :=
  ⟨signed32 ((bits32 a.val + bits32 b.val) % 4294967296), by
    have h : (bits32 a.val + bits32 b.val) % 4294967296 < 4294967296 :=
      Nat.mod_lt _ (by decide)
    unfold signed32 INT32_MIN INT32_MAX
    split <;> constructor <;> omega⟩

/-! ## The logging collaborator -/

namespace spdlog

/-- Severity of a message; each severity has its own entry point
(`spdlog::trace`, ..., `spdlog::info`, ..., `spdlog::critical`). -/
inductive level where
  | trace | debug | info | warn | err | critical
  deriving DecidableEq, Repr

/-- One call of a logging entry point: severity, format string and the
arguments that fill the format's placeholders. -/
structure call where
  lvl : level
  fmt : String
  args : List int32_t
  deriving DecidableEq

end spdlog

/-- The external logging collaborator: given its current state and a call, it
either returns (with its next state) or raises `ε`. -/
structure Logger (σ ε : Type) where
  log : σ → spdlog.call → Except ε σ

/-- The collaborator returns from every call made in state `s`. -/
def Logger.available {σ ε : Type} (L : Logger σ ε) (s : σ) : Prop :=
  ∀ m : spdlog.call, ∃ t : σ, L.log s m = Except.ok t

/-! ## `src/ccore/ccore.cpp` -/

/-- Embedding of `by2::ccore_add`:
```
auto c = a + b;
spdlog::info("adding {} + {} = {}", a, b, c);
return c;
```
The result is the returned value together with the logger's next state, or the
exception that left the logging call. -/
def ccore_add {σ ε : Type} (L : Logger σ ε) (s : σ) (a b : int32_t) :
    Except ε (int32_t × σ) :=
  let c := int32_add a b
  match L.log s ⟨spdlog.level.info, "adding {} + {} = {}", [a, b, c]⟩ with
  | Except.ok t => Except.ok (c, t)
  | Except.error e => Except.error e

/-! ## `src/by2/by2/by2.h`: the annotation `BY2_API` -/

/-- The macros the conditionals of `by2.h` inspect.  A `Bool` field says
whether the macro is defined; `__GNUC__` carries its value when defined. -/
structure MacroEnv where
  _WIN32 : Bool
  __CYGWIN__ : Bool
  BY2_BUILD_SHARED : Bool
  BY2_USE_SHARED : Bool
  __GNUC__ : Option Int
  deriving DecidableEq, Repr

/-- The replacement texts `BY2_API` can receive. -/
inductive Annotation where
  /-- `__declspec(dllexport)` -/
  | declspec_dllexport
  /-- `__declspec(dllimport)` -/
  | declspec_dllimport
  /-- `__attribute__((visibility("default")))` -/
  | attribute_visibility_default
  /-- the empty replacement text -/
  | empty
  deriving DecidableEq, Repr

/-- Value of an identifier inside `#if`: its replacement when it is defined,
`0` when it is not. -/
def ppValue (m : Option Int) : Int := m.getD 0

/-- The condition `defined(_WIN32) || defined(__CYGWIN__)`. -/
def MacroEnv.windowsFamily (e : MacroEnv) : Bool := e._WIN32 || e.__CYGWIN__

/-- Embedding of the conditional block of `by2.h` that defines `BY2_API`. -/
def BY2_API (e : MacroEnv) : Annotation :=
  if e._WIN32 || e.__CYGWIN__ then
    if e.BY2_BUILD_SHARED then Annotation.declspec_dllexport
    else if e.BY2_USE_SHARED then Annotation.declspec_dllimport
    else Annotation.empty
  else
    if e.BY2_BUILD_SHARED && decide (ppValue e.__GNUC__ ≥ 4) then
      Annotation.attribute_visibility_default
    else Annotation.empty

/-- An export annotation marks a symbol as part of the module's public
surface. -/
def Annotation.isExport : Annotation → Bool
  | Annotation.declspec_dllexport => true
  | Annotation.attribute_visibility_default => true
  | _ => false

/-- An import annotation marks a symbol as resolved from an external module. -/
def Annotation.isImport : Annotation → Bool
  | Annotation.declspec_dllimport => true
  | _ => false

/-! ## Concrete inputs used below -/

/-- A logger that appends every call to its state and always returns. -/
def recorder : Logger (List spdlog.call) String :=
  ⟨fun s m => Except.ok (s ++ [m])⟩

/-- A logger whose every call raises. -/
def unavailable : Logger Unit String :=
  ⟨fun _ _ => Except.error "no sink"⟩

/-- A logger that counts the `info` calls it receives and raises on a call of
any other severity. -/
def infoOnly : Logger Nat String :=
  ⟨fun n m =>
    if m.lvl = spdlog.level.info then Except.ok (n + 1)
    else Except.error "severity disabled"⟩

/-- A consumer of the shared module on a non-Windows platform, GCC 13. -/
def elfConsumer : MacroEnv :=
  { _WIN32 := false, __CYGWIN__ := false, BY2_BUILD_SHARED := false,
    BY2_USE_SHARED := true, __GNUC__ := some 13 }

/-- The library built as a shared module on a non-Windows platform by a
compiler that does not define `__GNUC__`. -/
def elfBuilderNoGnuc : MacroEnv :=
  { _WIN32 := false, __CYGWIN__ := false, BY2_BUILD_SHARED := true,
    BY2_USE_SHARED := false, __GNUC__ := none }

/-- A consumer of the shared module on Windows, compiler without `__GNUC__`. -/
def windowsConsumer : MacroEnv :=
  { _WIN32 := true, __CYGWIN__ := false, BY2_BUILD_SHARED := false,
    BY2_USE_SHARED := true, __GNUC__ := none }

/-- The library built as a shared module under Cygwin with GCC 11. -/
def cygwinBuilder : MacroEnv :=
  { _WIN32 := false, __CYGWIN__ := true, BY2_BUILD_SHARED := true,
    BY2_USE_SHARED := false, __GNUC__ := some 11 }

/-- A static build on Windows with a GNU-compatible compiler. -/
def windowsStatic : MacroEnv :=
  { _WIN32 := true, __CYGWIN__ := false, BY2_BUILD_SHARED := false,
    BY2_USE_SHARED := false, __GNUC__ := some 12 }

end by2

namespace by2

/-! ## Lemmas on the adder -/

/-- The adder returns the sum, moved by `2^32` when it leaves the range. -/
theorem int32_add_cases (a b : int32_t) :
    (int32_add a b).val =
      if INT32_MAX < a.val + b.val then a.val + b.val - 4294967296
      else if a.val + b.val < INT32_MIN then a.val + b.val + 4294967296
      else a.val + b.val := by
  have ha := a.property
  have hb := b.property
  unfold INT32_MIN INT32_MAX at *
  simp only [int32_add, bits32, signed32]
  split_ifs <;> omega

theorem int32_add_comm (a b : int32_t) : int32_add a b = int32_add b a := by
  apply Subtype.ext
  simp only [int32_add, Nat.add_comm]

theorem int32_add_zero (a : int32_t) (z : int32_t) (hz : z.val = 0) :
    int32_add a z = a := by
  apply Subtype.ext
  have ha := a.property
  rw [int32_add_cases, hz]
  unfold INT32_MIN INT32_MAX at *
  split_ifs <;> omega

/-! ## Lemmas on `ccore_add` -/

theorem recorder_available (s : List spdlog.call) : recorder.available s :=
  fun _ => ⟨_, rfl⟩

/-- When the logging call returns, `ccore_add` returns the adder's result. -/
theorem ccore_add_returns {σ ε : Type} (L : Logger σ ε) (s : σ) (a b : int32_t)
    (hL : L.available s) :
    ∃ t : σ, ccore_add L s a b = Except.ok (int32_add a b, t) := by
  obtain ⟨t, ht⟩ :=
    hL ⟨spdlog.level.info, "adding {} + {} = {}", [a, b, int32_add a b]⟩
  exact ⟨t, by simp only [ccore_add, ht]⟩

/-- A value `ccore_add` returns is the adder's result. -/
theorem ccore_add_value {σ ε : Type} (L : Logger σ ε) (s : σ) (a b : int32_t)
    (r : int32_t × σ) (h : ccore_add L s a b = Except.ok r) :
    r.1 = int32_add a b := by
  simp only [ccore_add] at h
  cases hlog : L.log s
      ⟨spdlog.level.info, "adding {} + {} = {}", [a, b, int32_add a b]⟩ with
  | ok t =>
    rw [hlog] at h
    cases h
    rfl
  | error e =>
    rw [hlog] at h
    cases h

/-! ## The add operation -/

/-- C1: for all `int32_t` operands `a`, `b` (and a logging call that returns),
`ccore_add(a, b)` returns the `int32_t` value `c` congruent to `a + b` modulo
`2^32`; `c` is the only `int32_t` value with that property, and `c = a + b`
whenever `a + b` lies in `[-2^31, 2^31)`. -/
theorem ccore_add_wraps {σ ε : Type} (L : Logger σ ε) (s : σ) (a b : int32_t)
    (hL : L.available s) :
    ∃ (c : int32_t) (t : σ), ccore_add L s a b = Except.ok (c, t) ∧
      c.val % 4294967296 = (a.val + b.val) % 4294967296 ∧
      (∀ d : int32_t, d.val % 4294967296 = (a.val + b.val) % 4294967296 → d = c) ∧
      (INT32_MIN ≤ a.val + b.val → a.val + b.val ≤ INT32_MAX →
        c.val = a.val + b.val) := by
  obtain ⟨t, ht⟩ := ccore_add_returns L s a b hL
  have hc := int32_add_cases a b
  have hr := (int32_add a b).property
  refine ⟨int32_add a b, t, ht, ?_, ?_, ?_⟩
  · unfold INT32_MIN INT32_MAX at *
    split_ifs at hc <;> omega
  · intro d hd
    apply Subtype.ext
    have hdr := d.property
    unfold INT32_MIN INT32_MAX at *
    split_ifs at hc <;> omega
  · intro hlo hhi
    unfold INT32_MIN INT32_MAX at *
    split_ifs at hc <;> omega

/-- Witness of C1 at `ccore_add(2147483647, 2147483647)` with the recording
logger. -/
theorem ccore_add_wraps_witness :
    recorder.available [] ∧
    ∃ (c : int32_t) (t : List spdlog.call),
      ccore_add recorder [] ⟨2147483647, by decide⟩ ⟨2147483647, by decide⟩
        = Except.ok (c, t) ∧
      c.val % 4294967296 = ((2147483647 : Int) + 2147483647) % 4294967296 ∧
      (∀ d : int32_t,
        d.val % 4294967296 = ((2147483647 : Int) + 2147483647) % 4294967296 →
          d = c) ∧
      (INT32_MIN ≤ (2147483647 : Int) + 2147483647 →
        (2147483647 : Int) + 2147483647 ≤ INT32_MAX →
        c.val = (2147483647 : Int) + 2147483647) :=
  ⟨recorder_available [],
    ccore_add_wraps recorder [] ⟨2147483647, by decide⟩ ⟨2147483647, by decide⟩
      (recorder_available [])⟩

/-- C2: `ccore_add(2147483647, 1)` returns `-2147483648` (with a logging call
that returns): the overflowing sum wraps to `INT32_MIN`, and no other value is
returned. -/
theorem ccore_add_max_one {σ ε : Type} (L : Logger σ ε) (s : σ)
    (hL : L.available s) :
    (∃ t : σ, ccore_add L s ⟨2147483647, by decide⟩ ⟨1, by decide⟩
        = Except.ok (⟨-2147483648, by decide⟩, t)) ∧
    (∀ r : int32_t × σ,
      ccore_add L s ⟨2147483647, by decide⟩ ⟨1, by decide⟩ = Except.ok r →
        r.1.val = INT32_MIN) := by
  have hv : int32_add ⟨2147483647, by decide⟩ ⟨1, by decide⟩
      = ⟨-2147483648, by decide⟩ := by decide
  constructor
  · obtain ⟨t, ht⟩ :=
      ccore_add_returns L s ⟨2147483647, by decide⟩ ⟨1, by decide⟩ hL
    exact ⟨t, hv ▸ ht⟩
  · intro r hr
    rw [ccore_add_value L s _ _ r hr, hv]
    rfl

/-- Witness of C2 with the recording logger. -/
theorem ccore_add_max_one_witness :
    recorder.available [] ∧
    (∃ t : List spdlog.call,
      ccore_add recorder [] ⟨2147483647, by decide⟩ ⟨1, by decide⟩
        = Except.ok (⟨-2147483648, by decide⟩, t)) :=
  ⟨recorder_available [], (ccore_add_max_one recorder [] (recorder_available [])).1⟩

/-- C3: for all `int32_t` operands `a`, `b`, `ccore_add(a, b)` and
`ccore_add(b, a)` return the same value, overflowing sums included (the two
calls may run in different logger states, each with a logging call that
returns). -/
theorem ccore_add_comm {σ ε : Type} (L : Logger σ ε) (s s' : σ) (a b : int32_t)
    (hL : L.available s) (hL' : L.available s') :
    ∃ (c : int32_t) (t t' : σ),
      ccore_add L s a b = Except.ok (c, t) ∧
      ccore_add L s' b a = Except.ok (c, t') := by
  obtain ⟨t, ht⟩ := ccore_add_returns L s a b hL
  obtain ⟨t', ht'⟩ := ccore_add_returns L s' b a hL'
  exact ⟨int32_add a b, t, t', ht, by rw [int32_add_comm a b]; exact ht'⟩

/-- Witness of C3 at the overflowing pair `(2147483647, 5)`. -/
theorem ccore_add_comm_witness :
    recorder.available [] ∧ recorder.available [] ∧
    ∃ (c : int32_t) (t t' : List spdlog.call),
      ccore_add recorder [] ⟨2147483647, by decide⟩ ⟨5, by decide⟩
        = Except.ok (c, t) ∧
      ccore_add recorder [] ⟨5, by decide⟩ ⟨2147483647, by decide⟩
        = Except.ok (c, t') :=
  ⟨recorder_available [], recorder_available [],
    ccore_add_comm recorder [] [] ⟨2147483647, by decide⟩ ⟨5, by decide⟩
      (recorder_available []) (recorder_available [])⟩

/-- C4: for every `int32_t` value `a`, `ccore_add(a, 0)` returns `a` (with a
logging call that returns). -/
theorem ccore_add_zero {σ ε : Type} (L : Logger σ ε) (s : σ) (a : int32_t)
    (hL : L.available s) :
    ∃ t : σ, ccore_add L s a ⟨0, by decide⟩ = Except.ok (a, t) := by
  obtain ⟨t, ht⟩ := ccore_add_returns L s a ⟨0, by decide⟩ hL
  rw [int32_add_zero a ⟨0, by decide⟩ rfl] at ht
  exact ⟨t, ht⟩

/-- Witness of C4 at `a = -2147483648`. -/
theorem ccore_add_zero_witness :
    recorder.available [] ∧
    ∃ t : List spdlog.call,
      ccore_add recorder [] ⟨-2147483648, by decide⟩ ⟨0, by decide⟩
        = Except.ok (⟨-2147483648, by decide⟩, t) :=
  ⟨recorder_available [],
    ccore_add_zero recorder [] ⟨-2147483648, by decide⟩ (recorder_available [])⟩

/-- C5, as stated, fails: with a logging collaborator whose call raises,
`ccore_add(2, 3)` does not return; the collaborator's exception reaches the
caller. -/
theorem ccore_add_unavailable_raises :
    ccore_add unavailable () ⟨2, by decide⟩ ⟨3, by decide⟩
        = Except.error "no sink" ∧
    ¬ ∃ r : int32_t × Unit,
        ccore_add unavailable () ⟨2, by decide⟩ ⟨3, by decide⟩ = Except.ok r := by
  refine ⟨rfl, ?_⟩
  rintro ⟨r, hr⟩
  cases hr

/-- C5, amended: the reporting does not affect the return value.  Two runs of
`ccore_add(a, b)` under any two loggers and logger states return the same
value whenever both return; `ccore_add` returns, with the adder's result,
whenever its one logging call returns (whatever the logger does on other
calls); and an exception raised by that call is passed on to the caller
unchanged. -/
theorem ccore_add_logger_independent {σ ε σ' ε' : Type}
    (L : Logger σ ε) (s : σ) (L' : Logger σ' ε') (s' : σ') (a b : int32_t) :
    (∀ (r : int32_t × σ) (r' : int32_t × σ'),
      ccore_add L s a b = Except.ok r → ccore_add L' s' a b = Except.ok r' →
        r.1 = r'.1) ∧
    (∀ t : σ,
      L.log s ⟨spdlog.level.info, "adding {} + {} = {}", [a, b, int32_add a b]⟩
          = Except.ok t →
        ccore_add L s a b = Except.ok (int32_add a b, t)) ∧
    (∀ e : ε,
      L.log s ⟨spdlog.level.info, "adding {} + {} = {}", [a, b, int32_add a b]⟩
          = Except.error e →
        ccore_add L s a b = Except.error e) := by
  refine ⟨?_, ?_, ?_⟩
  · intro r r' hr hr'
    rw [ccore_add_value L s a b r hr, ccore_add_value L' s' a b r' hr']
  · intro t ht
    simp only [ccore_add, ht]
  · intro e he
    simp only [ccore_add, he]

/-- Witness of the amended C5: with a logger that raises on every call but
`info` ones, the logging call of `ccore_add(-5, 7)` returns, so `ccore_add`
returns `2`; and the recording logger returns the same value. -/
theorem ccore_add_logger_independent_witness :
    infoOnly.log 0
        ⟨spdlog.level.info, "adding {} + {} = {}",
          [⟨-5, by decide⟩, ⟨7, by decide⟩,
            int32_add ⟨-5, by decide⟩ ⟨7, by decide⟩]⟩
      = Except.ok 1 ∧
    ccore_add infoOnly 0 ⟨-5, by decide⟩ ⟨7, by decide⟩
      = Except.ok (int32_add ⟨-5, by decide⟩ ⟨7, by decide⟩, 1) ∧
    (∀ (r : int32_t × Nat) (r' : int32_t × List spdlog.call),
      ccore_add infoOnly 0 ⟨-5, by decide⟩ ⟨7, by decide⟩ = Except.ok r →
      ccore_add recorder [⟨spdlog.level.warn, "disk full", []⟩]
          ⟨-5, by decide⟩ ⟨7, by decide⟩ = Except.ok r' →
        r.1 = r'.1) :=
  ⟨rfl,
    (ccore_add_logger_independent infoOnly 0 recorder
      [⟨spdlog.level.warn, "disk full", []⟩] ⟨-5, by decide⟩ ⟨7, by decide⟩).2.1
      1 rfl,
    (ccore_add_logger_independent infoOnly 0 recorder
      [⟨spdlog.level.warn, "disk full", []⟩] ⟨-5, by decide⟩ ⟨7, by decide⟩).1⟩

/-- C9: `ccore_add(2, 3)` returns `5` (with a logging call that returns). -/
theorem ccore_add_two_three {σ ε : Type} (L : Logger σ ε) (s : σ)
    (hL : L.available s) :
    ∃ t : σ, ccore_add L s ⟨2, by decide⟩ ⟨3, by decide⟩
      = Except.ok (⟨5, by decide⟩, t) := by
  have hv : int32_add ⟨2, by decide⟩ ⟨3, by decide⟩ = ⟨5, by decide⟩ := by decide
  obtain ⟨t, ht⟩ := ccore_add_returns L s ⟨2, by decide⟩ ⟨3, by decide⟩ hL
  exact ⟨t, hv ▸ ht⟩

/-- Witness of C9 with the recording logger. -/
theorem ccore_add_two_three_witness :
    recorder.available [] ∧
    ∃ t : List spdlog.call,
      ccore_add recorder [] ⟨2, by decide⟩ ⟨3, by decide⟩
        = Except.ok (⟨5, by decide⟩, t) :=
  ⟨recorder_available [], ccore_add_two_three recorder [] (recorder_available [])⟩

/-- C10: `ccore_add(-5, 5)` returns `0` (with a logging call that returns). -/
theorem ccore_add_neg_five_five {σ ε : Type} (L : Logger σ ε) (s : σ)
    (hL : L.available s) :
    ∃ t : σ, ccore_add L s ⟨-5, by decide⟩ ⟨5, by decide⟩
      = Except.ok (⟨0, by decide⟩, t) := by
  have hv : int32_add ⟨-5, by decide⟩ ⟨5, by decide⟩ = ⟨0, by decide⟩ := by decide
  obtain ⟨t, ht⟩ := ccore_add_returns L s ⟨-5, by decide⟩ ⟨5, by decide⟩ hL
  exact ⟨t, hv ▸ ht⟩

/-- Witness of C10 with the recording logger. -/
theorem ccore_add_neg_five_five_witness :
    recorder.available [] ∧
    ∃ t : List spdlog.call,
      ccore_add recorder [] ⟨-5, by decide⟩ ⟨5, by decide⟩
        = Except.ok (⟨0, by decide⟩, t) :=
  ⟨recorder_available [],
    ccore_add_neg_five_five recorder [] (recorder_available [])⟩

/-! ## The visibility shim -/

/-- C6, as stated, fails: a consumer of the shared module on a non-Windows
platform gets the empty annotation, not an import annotation. -/
theorem BY2_API_elf_consumer_empty :
    elfConsumer.BY2_USE_SHARED = true ∧ elfConsumer.BY2_BUILD_SHARED = false ∧
    BY2_API elfConsumer = Annotation.empty ∧
    (BY2_API elfConsumer).isImport = false := by
  decide

/-- C6, amended: when `BY2_USE_SHARED` is defined and `BY2_BUILD_SHARED` is
not, `BY2_API` is `__declspec(dllimport)` on the Windows-family platform, for
every compiler version, and is empty on every other platform. -/
theorem BY2_API_consuming (e : MacroEnv) (hu : e.BY2_USE_SHARED = true)
    (hb : e.BY2_BUILD_SHARED = false) :
    (e.windowsFamily = true →
      BY2_API e = Annotation.declspec_dllimport ∧ (BY2_API e).isImport = true) ∧
    (e.windowsFamily = false → BY2_API e = Annotation.empty) := by
  unfold MacroEnv.windowsFamily BY2_API
  constructor
  · intro hw
    simp [hw, hu, hb, Annotation.isImport]
  · intro hw
    simp [hw, hb]

/-- Witness of the amended C6 at a Windows consumer. -/
theorem BY2_API_consuming_witness :
    windowsConsumer.BY2_USE_SHARED = true ∧
    windowsConsumer.BY2_BUILD_SHARED = false ∧
    windowsConsumer.windowsFamily = true ∧
    BY2_API windowsConsumer = Annotation.declspec_dllimport :=
  ⟨rfl, rfl, rfl, ((BY2_API_consuming windowsConsumer rfl rfl).1 rfl).1⟩

/-- C7, as stated, fails: built as a shared module on a non-Windows platform by
a compiler that does not define `__GNUC__`, the library gets the empty
annotation, not an export annotation. -/
theorem BY2_API_elf_builder_empty :
    elfBuilderNoGnuc.BY2_BUILD_SHARED = true ∧
    BY2_API elfBuilderNoGnuc = Annotation.empty ∧
    (BY2_API elfBuilderNoGnuc).isExport = false := by
  decide

/-- C7, amended: when `BY2_BUILD_SHARED` is defined, `BY2_API` is
`__declspec(dllexport)` on the Windows-family platform, for every compiler; on
every other platform it is `__attribute__((visibility("default")))` when
`__GNUC__ >= 4` and empty otherwise (an undefined `__GNUC__` counts as 0). -/
theorem BY2_API_building (e : MacroEnv) (hb : e.BY2_BUILD_SHARED = true) :
    (e.windowsFamily = true →
      BY2_API e = Annotation.declspec_dllexport ∧ (BY2_API e).isExport = true) ∧
    (e.windowsFamily = false → 4 ≤ ppValue e.__GNUC__ →
      BY2_API e = Annotation.attribute_visibility_default ∧
        (BY2_API e).isExport = true) ∧
    (e.windowsFamily = false → ppValue e.__GNUC__ < 4 →
      BY2_API e = Annotation.empty) := by
  unfold MacroEnv.windowsFamily BY2_API
  refine ⟨?_, ?_, ?_⟩
  · intro hw
    simp [hw, hb, Annotation.isExport]
  · intro hw hg
    simp [hw, hb, hg, Annotation.isExport]
  · intro hw hg
    simp [hw, hb, hg]

/-- Witness of the amended C7 at a Cygwin build of the shared module. -/
theorem BY2_API_building_witness :
    cygwinBuilder.BY2_BUILD_SHARED = true ∧
    cygwinBuilder.windowsFamily = true ∧
    BY2_API cygwinBuilder = Annotation.declspec_dllexport :=
  ⟨rfl, rfl, ((BY2_API_building cygwinBuilder rfl).1 rfl).1⟩

/-- C8: when neither `BY2_BUILD_SHARED` nor `BY2_USE_SHARED` is defined,
`BY2_API` is empty, on every platform and for every compiler version. -/
theorem BY2_API_static (e : MacroEnv) (hb : e.BY2_BUILD_SHARED = false)
    (hu : e.BY2_USE_SHARED = false) :
    BY2_API e = Annotation.empty := by
  unfold BY2_API
  simp [hb, hu]

/-- Witness of C8 at a static build on Windows. -/
theorem BY2_API_static_witness :
    windowsStatic.BY2_BUILD_SHARED = false ∧
    windowsStatic.BY2_USE_SHARED = false ∧
    BY2_API windowsStatic = Annotation.empty :=
  ⟨rfl, rfl, BY2_API_static windowsStatic rfl rfl⟩

/-- C11: platform dispatch.  On the Windows-family platform `BY2_API` is
`__declspec(dllexport)`, `__declspec(dllimport)` or empty, never the visibility
attribute.  On every other platform it is
`__attribute__((visibility("default")))` exactly when `BY2_BUILD_SHARED` is
defined and `__GNUC__ >= 4` (an undefined `__GNUC__` counting as 0), empty
otherwise, and never a `__declspec` attribute. -/
theorem BY2_API_platform_dispatch (e : MacroEnv) :
    (e.windowsFamily = true →
      (BY2_API e = Annotation.declspec_dllexport ∨
        BY2_API e = Annotation.declspec_dllimport ∨
        BY2_API e = Annotation.empty) ∧
      BY2_API e ≠ Annotation.attribute_visibility_default) ∧
    (e.windowsFamily = false →
      (BY2_API e = Annotation.attribute_visibility_default ↔
        (e.BY2_BUILD_SHARED = true ∧ 4 ≤ ppValue e.__GNUC__)) ∧
      (¬ (e.BY2_BUILD_SHARED = true ∧ 4 ≤ ppValue e.__GNUC__) →
        BY2_API e = Annotation.empty) ∧
      BY2_API e ≠ Annotation.declspec_dllexport ∧
      BY2_API e ≠ Annotation.declspec_dllimport) := by
  unfold MacroEnv.windowsFamily BY2_API
  constructor
  · intro hw
    rw [if_pos hw]
    cases e.BY2_BUILD_SHARED <;> cases e.BY2_USE_SHARED <;> simp
  · intro hw
    rw [if_neg (by simp [hw])]
    by_cases hg : 4 ≤ ppValue e.__GNUC__
    · cases e.BY2_BUILD_SHARED <;> simp [hg]
    · cases e.BY2_BUILD_SHARED <;> simp [hg]

/-- Witness of C11: a Linux build of the shared module with GCC 4 gets the
visibility attribute, and one without `__GNUC__` gets the empty annotation. -/
theorem BY2_API_platform_dispatch_witness :
    BY2_API { elfBuilderNoGnuc with __GNUC__ := some 4 }
      = Annotation.attribute_visibility_default ∧
    BY2_API elfBuilderNoGnuc = Annotation.empty ∧
    BY2_API cygwinBuilder ≠ Annotation.attribute_visibility_default :=
  ⟨((BY2_API_platform_dispatch { elfBuilderNoGnuc with __GNUC__ := some 4 }).2
        rfl).1.2 ⟨rfl, by decide⟩,
    ((BY2_API_platform_dispatch elfBuilderNoGnuc).2 rfl).2.1 (by decide),
    ((BY2_API_platform_dispatch cygwinBuilder).1 rfl).2⟩

/-- C12: one call of `ccore_add(a, b)` makes exactly one logging call, at
severity `info`, with format `"adding {} + {} = {}"` and the arguments `a`,
`b`, `c` in this order, where `c` is the value the call returns.  With the
recording logger the record grows by exactly that one message; with any logger
the state left behind is the state of that one call, and an exception that
leaves `ccore_add` is the exception of that one call. -/
theorem ccore_add_reports_once {σ ε : Type} (L : Logger σ ε) (s : σ)
    (log : List spdlog.call) (a b : int32_t) :
    (∃ c : int32_t, ccore_add recorder log a b =
      Except.ok (c, log ++ [⟨spdlog.level.info, "adding {} + {} = {}", [a, b, c]⟩])) ∧
    (∀ (c : int32_t) (t : σ), ccore_add L s a b = Except.ok (c, t) →
      L.log s ⟨spdlog.level.info, "adding {} + {} = {}", [a, b, c]⟩
        = Except.ok t) ∧
    (∀ x : ε, ccore_add L s a b = Except.error x →
      L.log s ⟨spdlog.level.info, "adding {} + {} = {}", [a, b, int32_add a b]⟩
        = Except.error x) := by
  refine ⟨⟨int32_add a b, rfl⟩, ?_, ?_⟩
  · intro c t h
    have hc : c = int32_add a b := ccore_add_value L s a b (c, t) h
    subst hc
    simp only [ccore_add] at h
    cases hlog : L.log s
        ⟨spdlog.level.info, "adding {} + {} = {}", [a, b, int32_add a b]⟩ with
    | ok u =>
      rw [hlog] at h
      cases h
      rfl
    | error x =>
      rw [hlog] at h
      cases h
  · intro x h
    simp only [ccore_add] at h
    cases hlog : L.log s
        ⟨spdlog.level.info, "adding {} + {} = {}", [a, b, int32_add a b]⟩ with
    | ok u =>
      rw [hlog] at h
      cases h
    | error y =>
      rw [hlog] at h
      cases h
      rfl

/-- Witness of C12: `ccore_add(2147483647, 1)` run after one earlier message
leaves a record of two messages, the second one carrying the returned value. -/
theorem ccore_add_reports_once_witness :
    ∃ c : int32_t,
      ccore_add recorder [⟨spdlog.level.warn, "disk full", []⟩]
          ⟨2147483647, by decide⟩ ⟨1, by decide⟩ =
        Except.ok (c, [⟨spdlog.level.warn, "disk full", []⟩] ++
          [⟨spdlog.level.info, "adding {} + {} = {}",
            [⟨2147483647, by decide⟩, ⟨1, by decide⟩, c]⟩]) :=
  (ccore_add_reports_once recorder [] [⟨spdlog.level.warn, "disk full", []⟩]
    ⟨2147483647, by decide⟩ ⟨1, by decide⟩).1

/-- C13: building takes precedence over consuming.  When `BY2_BUILD_SHARED` is
defined, `BY2_API` is the same with and without `BY2_USE_SHARED`; on the
Windows-family platform with both defined it is `__declspec(dllexport)`, not
`__declspec(dllimport)`; on other platforms `BY2_API` does not depend on
`BY2_USE_SHARED`. -/
theorem BY2_API_build_precedence (e : MacroEnv) :
    (e.BY2_BUILD_SHARED = true →
      BY2_API { e with BY2_USE_SHARED := true }
        = BY2_API { e with BY2_USE_SHARED := false }) ∧
    (e.windowsFamily = true → e.BY2_BUILD_SHARED = true →
      e.BY2_USE_SHARED = true →
        BY2_API e = Annotation.declspec_dllexport ∧
        BY2_API e ≠ Annotation.declspec_dllimport) ∧
    (e.windowsFamily = false →
      ∀ u : Bool, BY2_API { e with BY2_USE_SHARED := u } = BY2_API e) := by
  unfold MacroEnv.windowsFamily BY2_API
  refine ⟨?_, ?_, ?_⟩
  · intro hb
    simp [hb]
  · intro hw hb hu
    simp [hw, hb]
  · intro hw u
    simp [hw]

/-- Witness of C13: a Windows build with both macros defined exports. -/
theorem BY2_API_build_precedence_witness :
    BY2_API { cygwinBuilder with BY2_USE_SHARED := true }
      = Annotation.declspec_dllexport ∧
    BY2_API { elfConsumer with BY2_USE_SHARED := false } = BY2_API elfConsumer :=
  ⟨(((BY2_API_build_precedence
        { cygwinBuilder with BY2_USE_SHARED := true }).2.1) rfl rfl rfl).1,
    (BY2_API_build_precedence elfConsumer).2.2 rfl false⟩

end by2
